import Mathlib

/-!
Verification of the request-dispatch core of a NewsBreak Business API client
(`client.py`): the rate limiter, the retry/backoff dispatcher `_request`, the
response classifier embedded in `_request`, and the report-parameter
normalizer inside `run_synchronous_report`.

The Python code is shallowly embedded: JSON values become an inductive type,
the classifier becomes a pure function from (status, parsed-body-or-parse-
failure, raw text) to an outcome, and the dispatcher becomes a function from
a transport oracle (one outcome per attempt index) and the attempt budget to
an observable trace (number of rate-limit acquisitions, number of transport
attempts, the backoff sleeps performed, and the final outcome).
-/

/-- A JSON value as produced by `response.json()`.  Numbers are modelled as
integers (the fields the classifier inspects — `code`, status codes — are
integral; float subtleties are outside the model). -/
inductive Json where
  | null : Json
  | bool (b : Bool) : Json
  | num (n : Int) : Json
  | str (s : String) : Json
  | arr (elems : List Json) : Json
  | obj (fields : List (String × Json)) : Json

/-- Python `d.get(k)` / `k in d` on a parsed JSON *dict*, given as its field
list (Python dicts have unique keys, so the association list is faithful):
the first binding of the key, `none` when absent.  Only ever applied to
dicts — Python's behaviour on non-dict bodies (`TypeError` from `in` and
indexing, `AttributeError` from `.get`) is modelled explicitly in the
classifier, not here. -/
def dictGet? (fields : List (String × Json)) (k : String) : Option Json :=
  fields.lookup k

/-- Python `d.get(k, dflt)` on a dict: the value bound to `k` when the key
is present (even when the value is falsy), the default otherwise. -/
def dictGetD (fields : List (String × Json)) (k : String) (dflt : Json) : Json :=
  (dictGet? fields k).getD dflt

/-- Python truthiness of a JSON value: `None`, `False`, `0`, `""`, `[]` and
an empty object are falsy, everything else is truthy. -/
def Json.truthy : Json → Bool
  | .null => false
  | .bool b => b
  | .num n => n != 0
  | .str s => s != ""
  | .arr [] => false
  | .arr (_ :: _) => true
  | .obj [] => false
  | .obj (_ :: _) => true

/-- Python `d.get(k1) or d.get(k2) or ... or dflt` on a dict: the first key
whose value is present *and truthy* wins; absent keys yield `None`, which is
falsy, so they are skipped exactly like present-but-falsy values. -/
def firstTruthy (fields : List (String × Json)) : List String → Json → Json
  | [], dflt => dflt
  | k :: ks, dflt =>
    match dictGet? fields k with
    | some v => if v.truthy then v else firstTruthy fields ks dflt
    | none => firstTruthy fields ks dflt

/-- Python `value != 0` test used on `data["code"]`: integers compare
numerically and `False == 0` in Python, so `num 0` and `bool false` are the
values equal to zero; every other JSON value is `!= 0`. -/
def Json.isZero : Json → Bool
  | .num n => n == 0
  | .bool b => b == false
  | _ => false

mutual

/-- Python `repr()` of a JSON value, used for elements inside containers
(escaping of quotes and control characters inside strings is not modelled;
no theorem below depends on container rendering). -/
def pyRepr : Json → String
  | .null => "None"
  | .bool true => "True"
  | .bool false => "False"
  | .num n => toString n
  | .str s => "\x27" ++ s ++ "\x27"
  | .arr elems => "[" ++ pyReprElems elems ++ "]"
  | .obj fields => "\x7b" ++ pyReprFields fields ++ "\x7d"

/-- Comma-joined `repr`s of list elements. -/
def pyReprElems : List Json → String
  | [] => ""
  | [x] => pyRepr x
  | x :: xs => pyRepr x ++ ", " ++ pyReprElems xs

/-- Comma-joined `repr`s of object fields. -/
def pyReprFields : List (String × Json) → String
  | [] => ""
  | [(k, v)] => "\x27" ++ k ++ "\x27: " ++ pyRepr v
  | (k, v) :: fs => "\x27" ++ k ++ "\x27: " ++ pyRepr v ++ ", " ++ pyReprFields fs

end

/-- Python `str()` as applied by f-string interpolation: strings verbatim,
`None` → `"None"`, booleans capitalised, integers in decimal, containers via
`repr` of their elements. -/
def pyStr : Json → String
  | .str s => s
  | j => pyRepr j

/-- The outcome of one `_request` call, as observable by the caller:
`ok` is a normal return of the parsed body; `apiError code message response`
is a raised `NewsBreakAPIError` (the `response` component is its optional
`response` attribute); `parseErr` is an uncaught `ValueError` escaping from
`response.json()` on a sub-400 response whose body is not JSON; `typeErr`
and `attrErr` are the uncaught `TypeError` / `AttributeError` that Python
raises when the classifier's membership, indexing or `.get` operations hit
a parsed body that is not a dict.  None of the last three is an
`httpx.HTTPError`, so all escape the retry loop without a retry. -/
inductive RequestResult where
  | ok (data : Json) : RequestResult
  | apiError (code : Json) (message : Json) (response : Option Json) : RequestResult
  | parseErr : RequestResult
  | typeErr : RequestResult
  | attrErr : RequestResult

/-- Whether the first character list is a prefix of the second. -/
def leadMatch : List Char → List Char → Bool
  | [], _ => true
  | _ :: _, [] => false
  | k :: ks, h :: hs => k == h && leadMatch ks hs

/-- Whether the first character list occurs contiguously inside the second. -/
def hasSub (needle : List Char) : List Char → Bool
  | [] => needle.isEmpty
  | h :: hs => leadMatch needle (h :: hs) || hasSub needle hs

/-- Python `needle in hay` on strings: substring containment (the empty
string is contained in everything, as in Python). -/
def pyStrContains (needle hay : String) : Bool := hasSub needle.data hay.data

/-- Python `k in xs` for a string `k` and a JSON-decoded list `xs`:
membership by `==`; among JSON values only an equal string compares equal
to a string. -/
def hasStrElem (elems : List Json) (k : String) : Bool :=
  elems.any (fun e =>
    match e with
    | .str s => s == k
    | _ => false)

/-- The status `≥ 400` handler's treatment of a body that *did* parse as
JSON (`client.py` lines 139–145): the Python `or`-chain over `message`,
`errMsg`, `error` on a dict; on any non-dict JSON value `error_data.get`
(line 140) raises `AttributeError`, which neither the surrounding
`except ValueError` nor the retry loop's `except httpx.HTTPError`
catches. -/
def classifyErrBody (status : Nat) : Json → RequestResult
  | .obj fields =>
    .apiError (.num status)
      (firstTruthy fields ["message", "errMsg", "error"] (.str ("HTTP " ++ toString status)))
      (some (.obj fields))
  | _ => .attrErr

/-- The status `< 400` handler's treatment of a parsed body (`client.py`
lines 157–178), including Python's behaviour when the body is not a dict:
`"code" in data` (line 157) raises `TypeError` for `None`, booleans and
numbers; for a string it is substring search and for a list it is element
membership, after which `data["code"]` (line 158) raises `TypeError`; a
string/list without the `code` marker but passing the `timestamp`/`url`
test of line 169 crashes with `AttributeError` at `data.get` (line 170);
any other string/list falls through to `return data` (line 178). -/
def classifyOkBody (status : Nat) : Json → RequestResult
  | .obj fields =>
    match dictGet? fields "code" with
    | some c =>
      if c.isZero then .ok (.obj fields)
      else .apiError c (dictGetD fields "errMsg" (.str "Unknown error")) (some (.obj fields))
    | none =>
      if (dictGet? fields "timestamp").isSome && (dictGet? fields "url").isSome then
        .apiError (.num status)
          (.str (pyStr (firstTruthy fields ["message", "error"] (.str "API returned error response"))
            ++ " (timestamp: " ++ pyStr (dictGetD fields "timestamp" .null) ++ ")"))
          (some (.obj fields))
      else .ok (.obj fields)
  | .str s =>
    if pyStrContains "code" s then .typeErr
    else if pyStrContains "timestamp" s && pyStrContains "url" s then .attrErr
    else .ok (.str s)
  | .arr elems =>
    if hasStrElem elems "code" then .typeErr
    else if hasStrElem elems "timestamp" && hasStrElem elems "url" then .attrErr
    else .ok (.arr elems)
  | _ => .typeErr

/-- Classification of one obtained HTTP response, translated from
`client.py` lines 135–178: `status` is `response.status_code`, `body` is
`some d` when `response.json()` parses to `d` and `none` when it raises
`ValueError`, `text` is `response.text`.  The sub-400 non-JSON case is the
uncaught `ValueError` (`parseErr`): there is no handler around line 154.
Non-dict JSON bodies follow Python's crash semantics — see
`classifyErrBody` and `classifyOkBody`. -/
def classify (status : Nat) (body : Option Json) (text : String) : RequestResult :=
  if 400 ≤ status then
    match body with
    | some d => classifyErrBody status d
    | none =>
      .apiError (.num status)
        (.str ("HTTP " ++ toString status ++ ": " ++ text.take 200)) none
  else
    match body with
    | none => .parseErr
    | some d => classifyOkBody status d

/-- What one transport round-trip of attempt `i` yields: either an
`httpx.HTTPError` with `str(e) = msg` (no HTTP response obtained), or an HTTP
response with its status, parsed-body-or-parse-failure, and raw text. -/
inductive AttemptOutcome where
  | transportFail (msg : String) : AttemptOutcome
  | response (status : Nat) (body : Option Json) (text : String) : AttemptOutcome

/-- The backoff sleeps `2 ^ attempt` performed for `count` consecutive failed
(and retried) attempts starting at absolute attempt index `first`. -/
def backoffs (first : Nat) : Nat → List Nat
  | 0 => []
  | count + 1 => 2 ^ first :: backoffs (first + 1) count

/-- The retry loop of `_request` (`client.py` lines 126–190): `attempt` is the
absolute index of the next attempt, `remaining` the number of iterations the
`range` still holds.  Returns (number of transport calls, sleeps performed,
final outcome).  A response — any status — is classified and returned or
raised at once; only `httpx.HTTPError` is caught, and the source's
`if attempt == retry_count - 1` test (true exactly when `remaining = 1`)
decides between converting it to a code `-1` error carrying
`"HTTP error: " ++ str(e)` and sleeping `2 ^ attempt` before retrying.  The
loop falling through (zero iterations) reaches line 190,
`"Max retries exceeded"`. -/
def requestLoop (oracle : Nat → AttemptOutcome) : Nat → Nat → Nat × List Nat × RequestResult
  | _, 0 => (0, [], .apiError (.num (-1)) (.str "Max retries exceeded") none)
  | attempt, 1 =>
    match oracle attempt with
    | .response status body text => (1, [], classify status body text)
    | .transportFail msg =>
      (1, [], .apiError (.num (-1)) (.str ("HTTP error: " ++ msg)) none)
  | attempt, remaining + 2 =>
    match oracle attempt with
    | .response status body text => (1, [], classify status body text)
    | .transportFail _ =>
      let rest := requestLoop oracle (attempt + 1) (remaining + 1)
      (rest.1 + 1, 2 ^ attempt :: rest.2.1, rest.2.2)

/-- The observable trace of one `_request` call. -/
structure RequestTrace where
  acquires : Nat
  attempts : Nat
  sleeps : List Nat
  result : RequestResult

/-- `_request` (`client.py` lines 97–190) against a transport oracle giving
the outcome of each attempt index.  `rate_limiter.acquire()` is awaited once,
at line 124, before the `for attempt in range(retry_count)` loop — so
`acquires` is `1` regardless of how many attempts follow.  `retry_count` is a
Python `int`; `range` of a non-positive value is empty, hence `Int.toNat`. -/
def NBrequest (oracle : Nat → AttemptOutcome) (retry_count : Int) : RequestTrace :=
  { acquires := 1
    attempts := (requestLoop oracle 0 retry_count.toNat).1
    sleeps := (requestLoop oracle 0 retry_count.toNat).2.1
    result := (requestLoop oracle 0 retry_count.toNat).2.2 }

/-- `RateLimiter.min_interval = 1.0 / calls_per_second` (`client.py` line 26),
in exact rational time-units (the binary floating-point rounding of the
quotient is outside the model). -/
def minInterval (callsPerSecond : Nat) : ℚ := 1 / callsPerSecond

/-- One serialized `acquire()` call (`client.py` lines 30–37), as seen by the
holder of the limiter's lock: `arrival` is the first clock reading
(`now = loop.time()`), `slack ≥ 0` is the extra time contributed by the sleep
overshooting its argument plus the second clock reading (`last_call` is
re-read *after* the sleep, line 37). -/
structure AcquireEvent where
  arrival : ℚ
  slack : ℚ

/-- The instant an acquisition is granted (= the new `last_call`): when less
than `min_interval` elapsed since the previous grant, the caller sleeps the
shortfall first. -/
def acquireGrant (minI last : ℚ) (e : AcquireEvent) : ℚ :=
  if e.arrival - last < minI then e.arrival + (minI - (e.arrival - last)) + e.slack
  else e.arrival + e.slack

/-- Grant instants of a sequence of `acquire()` calls, serialized in request
order by the limiter's FIFO lock, starting from `last_call = last`. -/
def grantTimes (minI : ℚ) (last : ℚ) : List AcquireEvent → List ℚ
  | [] => []
  | e :: es => acquireGrant minI last e :: grantTimes minI (acquireGrant minI last e) es

/-- The dimension alias table of `run_synchronous_report`
(`client.py` lines 300–313). -/
def dimension_map : List (String × String) :=
  [("date", "DATE"), ("hour", "HOUR"), ("org", "ORG"), ("organization", "ORG"),
   ("ad_account", "AD_ACCOUNT"), ("ad_account_id", "AD_ACCOUNT"),
   ("campaign", "CAMPAIGN"), ("campaign_id", "CAMPAIGN"),
   ("ad_set", "AD_SET"), ("ad_set_id", "AD_SET"), ("ad", "AD"), ("ad_id", "AD")]

/-- The metric alias table of `run_synchronous_report`
(`client.py` lines 315–331). -/
def metric_map : List (String × String) :=
  [("cost", "COST"), ("spend", "COST"), ("impression", "IMPRESSION"),
   ("impressions", "IMPRESSION"), ("click", "CLICK"), ("clicks", "CLICK"),
   ("conversion", "CONVERSION"), ("conversions", "CONVERSION"), ("value", "VALUE"),
   ("cpm", "CPM"), ("cpc", "CPC"), ("cpa", "CPA"), ("ctr", "CTR"),
   ("cvr", "CVR"), ("vpa", "VPA")]

/-- Python `s.lower()`, restricted to the basic-latin range the alias tokens
live in (`Char.toLower` maps exactly `A`–`Z`, like CPython does on ASCII). -/
def pyLower (s : String) : String := ⟨s.data.map Char.toLower⟩

/-- Python `s.upper()`, restricted to the basic-latin range
(`Char.toUpper` maps exactly `a`–`z`, like CPython does on ASCII). -/
def pyUpper (s : String) : String := ⟨s.data.map Char.toUpper⟩

/-- One token of `table.get(tok.lower(), tok.upper())`
(`client.py` lines 337 and 346). -/
def normalizeToken (table : List (String × String)) (tok : String) : String :=
  (table.lookup (pyLower tok)).getD (pyUpper tok)

/-- Dimension normalization of `run_synchronous_report` (`client.py` lines
333–340).  In the source the input is `None` or a list and the guard is
`if dimensions:`, so `None` and `[]` behave identically; both are modelled by
the empty list. -/
def normalizeDimensions (dims : List String) : List String :=
  if dims = [] then ["DATE", "CAMPAIGN"]
  else dims.map (normalizeToken dimension_map)

/-- Metric normalization of `run_synchronous_report` (`client.py` lines
342–349); `None` and `[]` again coincide. -/
def normalizeMetrics (mets : List String) : List String :=
  if mets = [] then ["COST", "IMPRESSION", "CLICK", "CTR", "CPC"]
  else mets.map (normalizeToken metric_map)

/-- The classifier rules for a status `≥ 400` response as the spec's §4.3
rule 1 states them, amended twice: among `message`, `errMsg`, `error` the
first key bound to a *truthy* value wins (Python `or`-chain), not the first
key merely present; and the dict rules apply only to a body that parses to
a JSON object — any other parsed body crashes the `.get` chain of line 140
with an uncaught `AttributeError`. -/
def specClassifyHttpError (status : Nat) (body : Option Json) (text : String) : RequestResult :=
  match body with
  | some (.obj fields) =>
    .apiError (.num status)
      (firstTruthy fields ["message", "errMsg", "error"] (.str ("HTTP " ++ toString status)))
      (some (.obj fields))
  | some _ => .attrErr
  | none =>
    .apiError (.num status)
      (.str ("HTTP " ++ toString status ++ ": " ++ text.take 200)) none

/-- The claim's rules for a status `< 400` response whose body parsed as a
JSON *object* (the amended scope), as the spec's §4.3 rules 3–5 state them:
a `code` field wins over the `timestamp`/`url` heuristic; `code != 0`
yields an error carrying `errMsg` when the key is present — even when
falsy, i.e. `dict.get` semantics — and `"Unknown error"` otherwise; the
heuristic message is the `or`-chain of `message` and `error` with its
default, with the timestamp appended. -/
def specClassifySuccessBody (status : Nat) (fields : List (String × Json)) : RequestResult :=
  match dictGet? fields "code" with
  | some c =>
    if c.isZero then .ok (.obj fields)
    else .apiError c (dictGetD fields "errMsg" (.str "Unknown error")) (some (.obj fields))
  | none =>
    if (dictGet? fields "timestamp").isSome && (dictGet? fields "url").isSome then
      .apiError (.num status)
        (.str (pyStr (firstTruthy fields ["message", "error"] (.str "API returned error response"))
          ++ " (timestamp: " ++ pyStr (dictGetD fields "timestamp" .null) ++ ")"))
        (some (.obj fields))
    else .ok (.obj fields)

theorem lookup_mem {k : String} {v : String} :
    ∀ {l : List (String × String)}, l.lookup k = some v → (k, v) ∈ l := by
  intro l
  induction l with
  | nil => intro h; simp [List.lookup] at h
  | cons p rest ih =>
    intro h
    rw [List.lookup] at h
    by_cases hk : k == p.1
    · simp only [hk, if_pos] at h
      have hkp : k = p.1 := eq_of_beq hk
      have hv : v = p.2 := by simpa using h.symm
      subst hkp
      subst hv
      exact List.mem_cons_self _ _
    · simp only [Bool.not_eq_true] at hk
      rw [hk] at h
      simp only [cond_false] at h
      exact List.mem_cons_of_mem _ (ih h)

theorem char_ofNat_upper_toNat {n : Nat} (h1 : 65 ≤ n) (h2 : n ≤ 90) :
    (Char.ofNat n).toNat = n := by
  interval_cases n <;> decide

theorem toUpper_not_lower (c : Char) :
    ¬ (97 ≤ (Char.toUpper c).toNat ∧ (Char.toUpper c).toNat ≤ 122) := by
  show ¬ (97 ≤ (if c.toNat ≥ 97 ∧ c.toNat ≤ 122 then Char.ofNat (c.toNat - 32) else c).toNat ∧
    (if c.toNat ≥ 97 ∧ c.toNat ≤ 122 then Char.ofNat (c.toNat - 32) else c).toNat ≤ 122)
  by_cases h : c.toNat ≥ 97 ∧ c.toNat ≤ 122
  · rw [if_pos h]
    rw [char_ofNat_upper_toNat (by omega) (by omega)]
    omega
  · rw [if_neg h]
    exact h

theorem requestLoop_response (oracle : Nat → AttemptOutcome) :
    ∀ (i a r : Nat), i < r →
    (∀ j, j < i → ∃ m, oracle (a + j) = .transportFail m) →
    ∀ {s : Nat} {b : Option Json} {t : String}, oracle (a + i) = .response s b t →
    requestLoop oracle a r = (i + 1, backoffs a i, classify s b t) := by
  intro i
  induction i with
  | zero =>
    intro a r hi _ s b t hresp
    rw [Nat.add_zero] at hresp
    match r, hi with
    | 1, _ =>
      rw [requestLoop, hresp]
      rfl
    | r' + 2, _ =>
      rw [requestLoop, hresp]
      rfl
  | succ i ih =>
    intro a r hi hfail s b t hresp
    obtain ⟨m, hm⟩ := hfail 0 (Nat.succ_pos i)
    rw [Nat.add_zero] at hm
    match r, hi with
    | r' + 2, hi =>
      have hr' : i < r' + 1 := by omega
      rw [requestLoop, hm]
      have hfail' : ∀ j, j < i → ∃ m, oracle (a + 1 + j) = .transportFail m := by
        intro j hj
        obtain ⟨m', hm'⟩ := hfail (j + 1) (by omega)
        exact ⟨m', by rwa [show a + (j + 1) = a + 1 + j by omega] at hm'⟩
      have hresp' : oracle (a + 1 + i) = .response s b t := by
        rwa [show a + 1 + i = a + (i + 1) by omega]
      rw [ih (a + 1) (r' + 1) hr' hfail' hresp']
      rfl

theorem requestLoop_allFail (oracle : Nat → AttemptOutcome) (msgs : Nat → String) :
    ∀ (r a : Nat), 1 ≤ r →
    (∀ j, j < r → oracle (a + j) = .transportFail (msgs (a + j))) →
    requestLoop oracle a r =
      (r, backoffs a (r - 1),
        .apiError (.num (-1)) (.str ("HTTP error: " ++ msgs (a + (r - 1)))) none) := by
  intro r
  induction r with
  | zero => intro a h; omega
  | succ r' ih =>
    intro a _ hfail
    have h0 := hfail 0 (Nat.succ_pos r')
    rw [Nat.add_zero] at h0
    match r', ih with
    | 0, _ =>
      rw [requestLoop, h0]
      simp [backoffs]
    | r'' + 1, ih =>
      rw [requestLoop, h0]
      have hfail' : ∀ j, j < r'' + 1 → oracle (a + 1 + j) = .transportFail (msgs (a + 1 + j)) := by
        intro j hj
        have := hfail (j + 1) (by omega)
        rwa [show a + (j + 1) = a + 1 + j by omega] at this
      rw [ih (a + 1) (by omega) hfail']
      have hb : backoffs a (r'' + 1 + 1 - 1) = 2 ^ a :: backoffs (a + 1) (r'' + 1 - 1) := by
        rw [show r'' + 1 + 1 - 1 = (r'' + 1 - 1) + 1 by omega, backoffs]
      rw [hb, show a + 1 + (r'' + 1 - 1) = a + (r'' + 1 + 1 - 1) by omega]

theorem backoffs_eq_range : ∀ (count first : Nat),
    backoffs first count = (List.range count).map (fun j => 2 ^ (first + j)) := by
  intro count
  induction count with
  | zero => intro first; simp [backoffs]
  | succ c ih =>
    intro first
    rw [backoffs, ih (first + 1), List.range_succ_eq_map, List.map_cons, List.map_map]
    refine congrArg₂ _ (by rw [Nat.add_zero]) ?_
    refine List.map_congr_left ?_
    intro j _
    show 2 ^ (first + 1 + j) = 2 ^ (first + (j + 1))
    congr 1
    omega

theorem acquireGrant_ge (minI last : ℚ) (e : AcquireEvent) (hs : 0 ≤ e.slack) :
    last + minI ≤ acquireGrant minI last e := by
  rw [acquireGrant]
  by_cases h : e.arrival - last < minI
  · rw [if_pos h]
    linarith
  · rw [if_neg h]
    push_neg at h
    linarith

theorem grantTimes_chain (minI : ℚ) :
    ∀ (events : List AcquireEvent) (last : ℚ),
    (∀ e ∈ events, 0 ≤ e.slack) →
    List.Chain' (fun g h => g + minI ≤ h) (grantTimes minI last events) := by
  intro events
  induction events with
  | nil => intro last _; simp [grantTimes]
  | cons e es ih =>
    intro last hs
    rw [grantTimes]
    cases es with
    | nil => simp [grantTimes]
    | cons e2 es2 =>
      rw [grantTimes, List.chain'_cons]
      constructor
      · exact acquireGrant_ge _ _ _ (hs e2 (by simp))
      · rw [show (acquireGrant minI (acquireGrant minI last e) e2 ::
            grantTimes minI (acquireGrant minI (acquireGrant minI last e) e2) es2)
            = grantTimes minI (acquireGrant minI last e) (e2 :: es2) from rfl]
        exact ih (acquireGrant minI last e) (fun x hx => hs x (List.mem_cons_of_mem _ hx))

theorem dimension_map_upper :
    ∀ p ∈ dimension_map, ∀ c ∈ p.2.data, ¬ (97 ≤ c.toNat ∧ c.toNat ≤ 122) := by
  decide

theorem metric_map_upper :
    ∀ p ∈ metric_map, ∀ c ∈ p.2.data, ¬ (97 ≤ c.toNat ∧ c.toNat ≤ 122) := by
  decide

theorem pyUpper_not_lower (s : String) :
    ∀ c ∈ (pyUpper s).data, ¬ (97 ≤ c.toNat ∧ c.toNat ≤ 122) := by
  intro c hc
  obtain ⟨c', _, rfl⟩ := List.mem_map.mp hc
  exact toUpper_not_lower c'

theorem normalizeToken_not_lower (table : List (String × String))
    (htable : ∀ p ∈ table, ∀ c ∈ p.2.data, ¬ (97 ≤ c.toNat ∧ c.toNat ≤ 122))
    (tok : String) :
    ∀ c ∈ (normalizeToken table tok).data, ¬ (97 ≤ c.toNat ∧ c.toNat ≤ 122) := by
  rw [normalizeToken]
  cases hlk : table.lookup (pyLower tok) with
  | none => exact pyUpper_not_lower tok
  | some v => exact htable (pyLower tok, v) (lookup_mem hlk)

/-- Claim C1, counterexample: with a transport that always fails and an
attempt budget of 2, `_request` performs 2 attempts but invokes
`RateLimiter.acquire` only once — the claim that every attempt (including
every retry) acquires a rate-limit slot is false. -/
theorem acquire_not_per_attempt_cex :
    (NBrequest (fun _ => .transportFail "boom") 2).attempts = 2 ∧
    (NBrequest (fun _ => .transportFail "boom") 2).acquires = 1 ∧
    (NBrequest (fun _ => .transportFail "boom") 2).acquires
      ≠ (NBrequest (fun _ => .transportFail "boom") 2).attempts :=
  ⟨rfl, rfl, by decide⟩

/-- Claim C1, amended: `acquire` is invoked exactly once per `_request`
invocation — before the first attempt (`client.py` line 124, outside the
retry loop) — regardless of the attempt budget and of how many retries
follow; retries do not acquire again. -/
theorem acquire_once_per_request (oracle : Nat → AttemptOutcome) (retry_count : Int) :
    (NBrequest oracle retry_count).acquires = 1 := rfl

/-- Claim C2: whenever some attempt `i` within the budget obtains an HTTP
response (any status code) after `i` transport failures, `_request` returns
or raises exactly the classified outcome of that response: no further
attempt is made (`attempts = i + 1`) and no further backoff sleep occurs
(the sleeps are exactly the `2^j` of the `i` preceding transport failures). -/
theorem response_classified_immediately (oracle : Nat → AttemptOutcome) (n : Int) (i : Nat)
    (s : Nat) (b : Option Json) (t : String)
    (hi : (i : Int) < n)
    (hfail : ∀ j, j < i → ∃ m, oracle j = .transportFail m)
    (hresp : oracle i = .response s b t) :
    (NBrequest oracle n).result = classify s b t ∧
    (NBrequest oracle n).attempts = i + 1 ∧
    (NBrequest oracle n).sleeps = (List.range i).map (fun j => 2 ^ j) := by
  have hi' : i < n.toNat := by omega
  have hfail' : ∀ j, j < i → ∃ m, oracle (0 + j) = .transportFail m := by
    intro j hj
    rw [Nat.zero_add]
    exact hfail j hj
  have hresp' : oracle (0 + i) = .response s b t := by
    rw [Nat.zero_add]
    exact hresp
  have hloop := requestLoop_response oracle i 0 n.toNat hi' hfail' hresp'
  have hback : backoffs 0 i = (List.range i).map (fun j => 2 ^ j) := by
    rw [backoffs_eq_range]
    exact List.map_congr_left (fun j _ => by rw [Nat.zero_add])
  refine ⟨?_, ?_, ?_⟩
  · show (requestLoop oracle 0 n.toNat).2.2 = _
    rw [hloop]
  · show (requestLoop oracle 0 n.toNat).1 = _
    rw [hloop]
  · show (requestLoop oracle 0 n.toNat).2.1 = _
    rw [hloop]
    exact hback

/-- Witness for C2: one transport failure, then a 500 response on attempt 1
with budget 3 — the 500 is classified and surfaced at once, never retried. -/
theorem response_classified_immediately_witness :
    ((1 : Nat) : Int) < 3 ∧
    (NBrequest (fun j => if j = 0 then .transportFail "reset" else .response 500 none "oops")
      3).result = classify 500 none "oops" :=
  ⟨by norm_num,
    (response_classified_immediately
      (fun j => if j = 0 then .transportFail "reset" else .response 500 none "oops")
      3 1 500 none "oops" (by norm_num)
      (fun j hj => by
        have hj0 : j = 0 := by omega
        subst hj0
        exact ⟨"reset", rfl⟩)
      rfl).1⟩

/-- Claim C3, counterexample: with a transport that always fails and
`maxAttempts = 3`, exhaustion raises code `-1` with message
`"HTTP error: boom"` — identical to what a single-attempt budget produces
and lacking any retry-exhaustion indication; the distinct
`"Max retries exceeded"` message exists in the code but is not what
exhaustion yields. -/
theorem exhaustion_not_distinct_cex :
    (NBrequest (fun _ => .transportFail "boom") 3).result
      = .apiError (.num (-1)) (.str "HTTP error: boom") none ∧
    (NBrequest (fun _ => .transportFail "boom") 3).result
      = (NBrequest (fun _ => .transportFail "boom") 1).result ∧
    ("HTTP error: boom" : String) ≠ "Max retries exceeded" :=
  ⟨rfl, rfl, by decide⟩

/-- Claim C3, amended: when every attempt of a budget `n ≥ 1` fails at the
transport level, `_request` sleeps `2^0, 2^1, …, 2^(n-2)` between attempts
(base 1, exponent starting at 0 for the first retry, as claimed) and then
raises code `-1` carrying the *last* underlying transport message prefixed
`"HTTP error: "` — the same shape as a single transport failure, with no
distinct retry-exhaustion marker (`"Max retries exceeded"` arises only for a
non-positive budget, see `nonpositive_budget_behavior`). -/
theorem transport_exhaustion (oracle : Nat → AttemptOutcome) (msgs : Nat → String) (n : Int)
    (hn : 1 ≤ n)
    (hfail : ∀ j, j < n.toNat → oracle j = .transportFail (msgs j)) :
    (NBrequest oracle n).result
      = .apiError (.num (-1)) (.str ("HTTP error: " ++ msgs (n.toNat - 1))) none ∧
    (NBrequest oracle n).sleeps = (List.range (n.toNat - 1)).map (fun j => 2 ^ j) ∧
    (NBrequest oracle n).attempts = n.toNat := by
  have h1 : 1 ≤ n.toNat := by omega
  have hfail' : ∀ j, j < n.toNat → oracle (0 + j) = .transportFail (msgs (0 + j)) := by
    intro j hj
    rw [Nat.zero_add]
    exact hfail j hj
  have hloop := requestLoop_allFail oracle msgs n.toNat 0 h1 hfail'
  rw [Nat.zero_add] at hloop
  have hback : backoffs 0 (n.toNat - 1) = (List.range (n.toNat - 1)).map (fun j => 2 ^ j) := by
    rw [backoffs_eq_range]
    exact List.map_congr_left (fun j _ => by rw [Nat.zero_add])
  refine ⟨?_, ?_, ?_⟩
  · show (requestLoop oracle 0 n.toNat).2.2 = _
    rw [hloop]
  · show (requestLoop oracle 0 n.toNat).2.1 = _
    rw [hloop]
    exact hback
  · show (requestLoop oracle 0 n.toNat).1 = _
    rw [hloop]

/-- Witness for the amended C3: budget 3, all attempts fail with messages
"0", "1", "2"; the surfaced error carries the last message. -/
theorem transport_exhaustion_witness :
    (1 : Int) ≤ 3 ∧
    (NBrequest (fun j => .transportFail (toString j)) 3).result
      = .apiError (.num (-1))
          (.str ("HTTP error: " ++ toString ((3 : Int).toNat - 1))) none :=
  ⟨by norm_num,
    (transport_exhaustion (fun j => .transportFail (toString j)) (fun j => toString j) 3
      (by norm_num) (fun j hj => rfl)).1⟩

/-- Claim C4, counterexample: at status 200 a body parsing to JSON `null`
makes `"code" in data` (`client.py` line 157) raise an uncaught
`TypeError` — not the `Success{payload: null}` that the claim's "otherwise
the outcome is Success" rule demands. -/
theorem success_body_nondict_cex :
    classify 200 (some Json.null) "" = RequestResult.typeErr ∧
    classify 200 (some Json.null) "" ≠ RequestResult.ok Json.null :=
  ⟨rfl, fun h => RequestResult.noConfusion h⟩

/-- Claim C4, amended: for a response with status `< 400` whose body parses
as a JSON *object*, the classifier applies exactly the claimed rules and
priority: a `code` field wins over the `timestamp`/`url` heuristic;
`code != 0` raises that code with `errMsg` when the key is present (even
when falsy — `dict.get` semantics) and `"Unknown error"` otherwise;
`code == 0` returns the body; the `timestamp`+`url` shape (without `code`)
raises the HTTP status code with the `message`/`error` chain plus the
timestamp; anything else returns the body.  Bodies parsing to non-object
JSON do not follow these rules: they crash with an uncaught `TypeError` or
`AttributeError`, or fall through to `return data` — see
`classifyOkBody`. -/
theorem success_body_classification (status : Nat) (fields : List (String × Json))
    (t : String) (h : status < 400) :
    classify status (some (Json.obj fields)) t = specClassifySuccessBody status fields := by
  unfold classify
  rw [if_neg (show ¬ 400 ≤ status by omega)]
  rfl

/-- Witness for the amended C4 at status 200 with a `code: 0` body. -/
theorem success_body_classification_witness :
    (200 : Nat) < 400 ∧
    classify 200 (some (Json.obj [("code", Json.num 0)])) ""
      = specClassifySuccessBody 200 [("code", Json.num 0)] :=
  ⟨by norm_num, success_body_classification 200 [("code", Json.num 0)] ""
    (by norm_num)⟩

/-- Claim C5, counterexample: at status 500 with body
`{"message": "", "errMsg": "x"}` the code produces message `"x"`, not the
`""` demanded by "first present of message, errMsg, error": the Python
`or`-chain skips the *present* but falsy `message` value. -/
theorem http_error_first_present_cex :
    classify 500 (some (Json.obj [("message", Json.str ""), ("errMsg", Json.str "x")])) ""
      = .apiError (.num 500) (.str "x")
          (some (Json.obj [("message", Json.str ""), ("errMsg", Json.str "x")])) ∧
    Json.str "x" ≠ Json.str "" :=
  ⟨rfl, fun h => by injection h with h2; exact absurd h2 (by decide)⟩

/-- Claim C5, amended: for status `≥ 400`, a body parsing as a JSON object
yields an error carrying the status code whose message is the first *truthy*
(not merely present) of `message`, `errMsg`, `error` — Python `or`-chain
semantics — else `"HTTP {statusCode}"`, with the parsed body attached; a
non-JSON body gives `"HTTP {statusCode}: "` plus the first 200 characters of
the raw body and no attached body; a body parsing as non-object JSON makes
`error_data.get` (`client.py` line 140) raise an uncaught
`AttributeError`. -/
theorem http_error_classification (status : Nat) (body : Option Json) (text : String)
    (h : 400 ≤ status) :
    classify status body text = specClassifyHttpError status body text := by
  unfold classify specClassifyHttpError
  rw [if_pos h]
  cases body with
  | none => rfl
  | some d => cases d <;> rfl

/-- Witness for the amended C5 at a 500 with an `errMsg`-only body. -/
theorem http_error_classification_witness :
    (400 : Nat) ≤ 500 ∧
    classify 500 (some (Json.obj [("errMsg", Json.str "x")])) ""
      = specClassifyHttpError 500 (some (Json.obj [("errMsg", Json.str "x")])) "" :=
  ⟨by norm_num, http_error_classification 500 (some (Json.obj [("errMsg", Json.str "x")])) ""
    (by norm_num)⟩

/-- Claim C6, counterexample: a status-200 response whose body is not JSON
makes `response.json()` at line 154 raise an uncaught `ValueError`
(`parseErr`); the classification is *not* the claimed
`ApiError(statusCode, "invalid response body")`. -/
theorem invalid_body_not_apiError_cex :
    classify 200 none "oops" = RequestResult.parseErr ∧
    classify 200 none "oops" ≠ .apiError (.num 200) (.str "invalid response body") none :=
  ⟨rfl, fun h => RequestResult.noConfusion h⟩

/-- Claim C6, amended: a response with status `< 400` and a non-JSON body
makes the `ValueError` from `response.json()` escape `_request` uncaught
(it is not an `httpx.HTTPError`, so the retry handler does not see it): no
`ApiError` is synthesised, no retry and no further backoff sleep occurs. -/
theorem invalid_body_propagates (oracle : Nat → AttemptOutcome) (n : Int) (i : Nat)
    (s : Nat) (t : String) (hs : s < 400) (hi : (i : Int) < n)
    (hfail : ∀ j, j < i → ∃ m, oracle j = .transportFail m)
    (hresp : oracle i = .response s none t) :
    (NBrequest oracle n).result = RequestResult.parseErr ∧
    (NBrequest oracle n).attempts = i + 1 ∧
    (NBrequest oracle n).sleeps = (List.range i).map (fun j => 2 ^ j) := by
  have hi' : i < n.toNat := by omega
  have hfail' : ∀ j, j < i → ∃ m, oracle (0 + j) = .transportFail m := by
    intro j hj
    rw [Nat.zero_add]
    exact hfail j hj
  have hresp' : oracle (0 + i) = .response s none t := by
    rw [Nat.zero_add]
    exact hresp
  have hloop := requestLoop_response oracle i 0 n.toNat hi' hfail' hresp'
  have hclass : classify s none t = RequestResult.parseErr := by
    unfold classify
    rw [if_neg (show ¬ 400 ≤ s by omega)]
  have hback : backoffs 0 i = (List.range i).map (fun j => 2 ^ j) := by
    rw [backoffs_eq_range]
    exact List.map_congr_left (fun j _ => by rw [Nat.zero_add])
  refine ⟨?_, ?_, ?_⟩
  · show (requestLoop oracle 0 n.toNat).2.2 = _
    rw [hloop]
    exact hclass
  · show (requestLoop oracle 0 n.toNat).1 = _
    rw [hloop]
  · show (requestLoop oracle 0 n.toNat).2.1 = _
    rw [hloop]
    exact hback

/-- Witness for the amended C6: a 200 with body "garbage" on the first
attempt of budget 1 — the parse failure escapes with no retry. -/
theorem invalid_body_propagates_witness :
    (200 : Nat) < 400 ∧ ((0 : Nat) : Int) < 1 ∧
    (NBrequest (fun _ => .response 200 none "garbage") 1).result
      = RequestResult.parseErr :=
  ⟨by norm_num, by norm_num,
    (invalid_body_propagates (fun _ => .response 200 none "garbage") 1 0 200 "garbage"
      (by norm_num) (by norm_num) (fun j hj => absurd hj (by omega)) rfl).1⟩

/-- Claim C7: each token is normalized by looking up its lowercase form in
the alias table (canonical uppercase token when present, verbatim uppercase
otherwise), the empty (or absent) list is replaced by the fixed defaults,
and the spec's concrete examples hold. -/
theorem normalizer_alias_examples :
    normalizeDimensions ["campaign_id"] = ["CAMPAIGN"] ∧
    normalizeMetrics ["spend", "impressions"] = ["COST", "IMPRESSION"] ∧
    normalizeMetrics ["unknown_metric"] = ["UNKNOWN_METRIC"] ∧
    normalizeDimensions [] = ["DATE", "CAMPAIGN"] ∧
    normalizeMetrics [] = ["COST", "IMPRESSION", "CLICK", "CTR", "CPC"] ∧
    (∀ ds, ds ≠ [] → normalizeDimensions ds = ds.map (normalizeToken dimension_map)) ∧
    (∀ ms, ms ≠ [] → normalizeMetrics ms = ms.map (normalizeToken metric_map)) := by
  refine ⟨by decide, by decide, by decide, by decide, by decide, ?_, ?_⟩
  · intro ds hds
    rw [normalizeDimensions, if_neg hds]
  · intro ms hms
    rw [normalizeMetrics, if_neg hms]

/-- Witness for C7 on a non-empty metric list. -/
theorem normalizer_alias_examples_witness :
    (["cost"] : List String) ≠ [] ∧
    normalizeMetrics ["cost"] = (["cost"] : List String).map (normalizeToken metric_map) :=
  ⟨by decide, normalizer_alias_examples.2.2.2.2.2.2 ["cost"] (by decide)⟩

/-- Claim C8, counterexample: with `retry_count = 0` the rate limiter is
still acquired once (line 124 runs before the budget is consulted), so the
claim that the configuration error is rejected *before* the first
acquisition — with no acquire call made — is false. -/
theorem nonpositive_budget_acquires_cex :
    (NBrequest (fun _ => .transportFail "x") 0).acquires = 1 ∧ (1 : Nat) ≠ 0 :=
  ⟨rfl, by decide⟩

/-- Claim C8, amended: a non-positive attempt budget is not rejected up
front: `_request` still acquires the rate-limit slot once, then the loop
body never runs (no transport call, no sleep) and the call fails with the
code `-1` error `"Max retries exceeded"` from line 190. -/
theorem nonpositive_budget_behavior (oracle : Nat → AttemptOutcome) (n : Int) (hn : n ≤ 0) :
    (NBrequest oracle n).acquires = 1 ∧
    (NBrequest oracle n).attempts = 0 ∧
    (NBrequest oracle n).sleeps = [] ∧
    (NBrequest oracle n).result
      = .apiError (.num (-1)) (.str "Max retries exceeded") none := by
  have h0 : n.toNat = 0 := by omega
  refine ⟨rfl, ?_, ?_, ?_⟩
  · show (requestLoop oracle 0 n.toNat).1 = 0
    rw [h0]
    rfl
  · show (requestLoop oracle 0 n.toNat).2.1 = []
    rw [h0]
    rfl
  · show (requestLoop oracle 0 n.toNat).2.2 = _
    rw [h0]
    rfl

/-- Witness for the amended C8 at budget 0. -/
theorem nonpositive_budget_behavior_witness :
    (0 : Int) ≤ 0 ∧
    (NBrequest (fun _ => .transportFail "x") 0).result
      = .apiError (.num (-1)) (.str "Max retries exceeded") none :=
  ⟨le_refl 0, (nonpositive_budget_behavior (fun _ => .transportFail "x") 0 (le_refl 0)).2.2.2⟩

/-- Claim C9: for a limiter configured at `N > 0` calls per second, the
grant instants of a sequence of `acquire()` calls — serialized in request
order by the limiter's FIFO lock, which the model's sequential processing
represents — are spaced at least `minInterval = 1/N` apart, consecutively,
and are strictly increasing (grants come in request order).  Time is exact
rational time; each sleep lasts at least its argument (`slack ≥ 0`). -/
theorem rate_limit_spacing (N : Nat) (hN : 0 < N) (last : ℚ)
    (events : List AcquireEvent) (hs : ∀ e ∈ events, 0 ≤ e.slack) :
    List.Chain' (fun g h => g + minInterval N ≤ h)
      (grantTimes (minInterval N) last events) ∧
    List.Chain' (fun g h => g < h) (grantTimes (minInterval N) last events) := by
  have hchain := grantTimes_chain (minInterval N) events last hs
  have hpos : 0 < minInterval N := by
    rw [minInterval]
    have hN' : (0 : ℚ) < N := by exact_mod_cast hN
    positivity
  exact ⟨hchain, List.Chain'.imp (fun a b hab => by linarith) hchain⟩

/-- Witness for C9: limiter at 2 calls/second, two back-to-back requests at
time 0 — grants are at least 1/2 apart. -/
theorem rate_limit_spacing_witness :
    (0 : Nat) < 2 ∧
    List.Chain' (fun g h => g + minInterval 2 ≤ h)
      (grantTimes (minInterval 2) 0 [⟨0, 0⟩, ⟨0, 0⟩]) :=
  ⟨by norm_num,
    (rate_limit_spacing 2 (by norm_num) 0 [⟨0, 0⟩, ⟨0, 0⟩]
      (fun e he => by
        have he' : e = ⟨0, 0⟩ := by simpa using he
        subst he'
        exact le_refl 0)).1⟩

/-- Claim C10: on a non-empty input list both normalizers return a list of
the same length whose `i`-th token is the normalization of the `i`-th input
token, and no output token contains a lowercase ASCII letter (it is either a
canonical table value or the uppercased input token). -/
theorem normalization_shape (ds : List String) (h : ds ≠ []) :
    (normalizeDimensions ds).length = ds.length ∧
    (∀ i : Nat, (normalizeDimensions ds)[i]? = (ds[i]?).map (normalizeToken dimension_map)) ∧
    (∀ tok ∈ normalizeDimensions ds, ∀ c ∈ tok.data, ¬ (97 ≤ c.toNat ∧ c.toNat ≤ 122)) ∧
    (normalizeMetrics ds).length = ds.length ∧
    (∀ i : Nat, (normalizeMetrics ds)[i]? = (ds[i]?).map (normalizeToken metric_map)) ∧
    (∀ tok ∈ normalizeMetrics ds, ∀ c ∈ tok.data, ¬ (97 ≤ c.toNat ∧ c.toNat ≤ 122)) := by
  have hd : normalizeDimensions ds = ds.map (normalizeToken dimension_map) := by
    rw [normalizeDimensions, if_neg h]
  have hm : normalizeMetrics ds = ds.map (normalizeToken metric_map) := by
    rw [normalizeMetrics, if_neg h]
  refine ⟨?_, ?_, ?_, ?_, ?_, ?_⟩
  · rw [hd, List.length_map]
  · intro i
    rw [hd, List.getElem?_map]
  · intro tok htok
    rw [hd] at htok
    obtain ⟨d, _, rfl⟩ := List.mem_map.mp htok
    exact normalizeToken_not_lower dimension_map dimension_map_upper d
  · rw [hm, List.length_map]
  · intro i
    rw [hm, List.getElem?_map]
  · intro tok htok
    rw [hm] at htok
    obtain ⟨d, _, rfl⟩ := List.mem_map.mp htok
    exact normalizeToken_not_lower metric_map metric_map_upper d

/-- Witness for C10 on the one-element list `["spend"]`. -/
theorem normalization_shape_witness :
    (["spend"] : List String) ≠ [] ∧
    (normalizeDimensions ["spend"]).length = (["spend"] : List String).length :=
  ⟨by decide, (normalization_shape ["spend"] (by decide)).1⟩
